import Mathlib

/-!
Verification development for the privacy-scanner repository.

This file gives a shallow embedding of the core logic of the scanner:

* `privacy_scanner/database.py` — the `CollectorsDatabase` risk model
  (`get_risk_level`, `get_risk_score`, `get_risk_factors`,
  `get_known_behaviors`, `_parse_frequency`, `_parse_data_types`);
* `privacy_scanner/utils/risk.py` — `categorize_permissions` and the
  static permission category table;
* `privacy_scanner/utils/adb.py` — the line-oriented `pm dump` parser
  `get_app_details`;
* `privacy_scanner/scanner.py` — the `scan_apps` orchestration loop.

Modelling conventions:

* Python `str` values that undergo real string processing (splitting,
  trimming, substring search) are modelled as `List Char` (`PyStr`);
  plain identifiers compared only for equality stay Lean `String`s.
* Python `float` arithmetic is modelled by exact rationals `ℚ`; the
  numbers involved (frequencies, the 0.1 multiplier step, the 100 cap)
  are small enough that this matches the intent of the code.
* A pandas cell is modelled by `CellValue`: missing/NaN, a numeric
  value, or a string value.  A pandas `DataFrame` access that can raise
  (for instance a malformed table without the `APK` column) is modelled
  by `Except String (List Row)`; Python `try/except` blocks that fall
  back to a default become `match`es on that `Except`.
* Python functions that internally catch every exception and return a
  default are total Lean functions returning that default on the same
  inputs.
-/

/-! ### Python string primitives, modelled on `List Char` -/

/-- A Python string, modelled as its list of characters. -/
abbrev PyStr := List Char

/-- Characters stripped by Python `str.strip()` (the ASCII whitespace
characters; the model ignores the more exotic Unicode whitespace). -/
def pyIsSpace (c : Char) : Bool :=
  c == ' ' || c == '\t' || c == '\n' || c == '\r' || c == '\x0b' || c == '\x0c'

/-- Python `str.strip()`: remove leading and trailing whitespace. -/
def pyStrip (s : PyStr) : PyStr :=
  ((s.dropWhile pyIsSpace).reverse.dropWhile pyIsSpace).reverse

/-- Python `str.lower()` (ASCII letters; the data the scanner handles is
ASCII). -/
def pyLower (s : PyStr) : PyStr :=
  s.map Char.toLower

/-- Does `s` start with `pat`?  (Helper for substring search.) -/
def leadsWith : PyStr → PyStr → Bool
  | [], _ => true
  | _ :: _, [] => false
  | a :: as, b :: bs => a == b && leadsWith as bs

/-- Python `pat in s`: substring containment. -/
def containsSub (s pat : PyStr) : Bool :=
  match s with
  | [] => leadsWith pat []
  | _ :: rest => leadsWith pat s || containsSub rest pat

/-- Worker for `pySplit`, structural in an explicit fuel argument so that
it reduces in the kernel.  `acc` is the current (reversed) chunk. -/
def pySplitAux (pat : PyStr) : Nat → PyStr → PyStr → List PyStr
  | _, [], acc => [acc.reverse]
  | 0, s, acc => [acc.reverse ++ s]
  | Nat.succ fuel, c :: rest, acc =>
    if pat ≠ [] && leadsWith pat (c :: rest) then
      acc.reverse :: pySplitAux pat fuel (List.drop pat.length (c :: rest)) []
    else
      pySplitAux pat fuel rest (c :: acc)

/-- Python `s.split(pat)` for a non-empty separator `pat`: split at each
non-overlapping occurrence, scanning left to right. -/
def pySplit (pat s : PyStr) : List PyStr :=
  pySplitAux pat s.length s []

/-- Python `s.split()` (no separator): split on whitespace runs,
discarding empty chunks. -/
def pySplitWs (s : PyStr) : List PyStr :=
  (s.splitOnP pyIsSpace).filter (fun t => !t.isEmpty)

/-- Value of a decimal digit character. -/
def digitVal (c : Char) : Nat := c.toNat - 48

/-- Numeric value of a list of decimal digit characters. -/
def natOfDigits (ds : List Char) : Nat :=
  ds.foldl (fun n c => 10 * n + digitVal c) 0

/-- First maximal run of decimal digits in `s`, if any — the model of
`re.findall(r'\d+', s)[0]`. -/
def firstDigitRun (s : PyStr) : Option (List Char) :=
  match s.dropWhile (fun c => !c.isDigit) with
  | [] => none
  | c :: rest => some ((c :: rest).takeWhile Char.isDigit)

/-- Python `int(x)` on a numeric value, modelled on `ℚ`: truncation
toward zero.  Lean's `ℤ` division rounds down, so the negative case
divides the negated (positive) numerator and negates the result, giving
`int(-7.5) = -7` like Python. -/
def ratTrunc (q : ℚ) : ℤ :=
  if 0 ≤ q.num then q.num / q.den else -((-q.num) / q.den)

/-- Python `min(a, b)` on two numbers. -/
def pyMin (a b : ℚ) : ℚ := if a ≤ b then a else b

/-! ### `database.py` — the `CollectorsDatabase` risk model -/

/-- A pandas cell as the scanner sees it: missing/`NaN`, a numeric
value, or a string value. -/
inductive CellValue where
  | none : CellValue
  | num : ℚ → CellValue
  | str : PyStr → CellValue
deriving DecidableEq

/-- One row of the collectors reference table: the `APK` key column and
the two columns the risk model reads (`row.get` of a missing column is
absorbed into `CellValue.none` / the numeric default). -/
structure Row where
  apk : String
  collection_frequency : CellValue
  data_types : CellValue
deriving DecidableEq

/-- The loaded `DataFrame`: either the list of rows, or a table access
that raises (for example a table without the `APK` column). -/
abbrev Df := Except String (List Row)

/-- The lookup `self.df[self.df['APK'] == package_id]` followed by
`iloc[0]`: first row whose `APK` equals `package_id` exactly
(case-sensitive), or `none`. -/
def findRow (df : Df) (package_id : String) : Except String (Option Row) :=
  df.map (fun rows => rows.find? (fun r => r.apk == package_id))

/-- Model of `CollectorsDatabase._parse_frequency` (database.py:141):
missing/empty → 0; numeric → `int(value)` (truncation toward zero);
string → the first run of decimal digits if any, else 0. -/
def _parse_frequency : CellValue → ℤ
  | CellValue.none => 0
  | CellValue.num q => ratTrunc q
  | CellValue.str s =>
    if s = [] then 0
    else
      match firstDigitRun s with
      | some ds => (natOfDigits ds : ℤ)
      | Option.none => 0

/-- Model of `CollectorsDatabase._parse_data_types` (database.py:160):
missing/empty → `[]`; a string is split on `','` and every chunk is
stripped and lower-cased; a non-string value → `[]`. -/
def _parse_data_types : CellValue → List PyStr
  | CellValue.none => []
  | CellValue.num _ => []
  | CellValue.str s =>
    if s = [] then []
    else (pySplit [','] s).map (fun t => pyLower (pyStrip t))

/-- The `RiskLevel` enum of `utils/risk.py`. -/
inductive RiskLevel where
  | HIGH | MEDIUM | LOW | NOT_FOUND
deriving DecidableEq

/-- The `.name` of a `RiskLevel` member, as used by `scanner.py`. -/
def RiskLevel.name : RiskLevel → String
  | HIGH => "HIGH"
  | MEDIUM => "MEDIUM"
  | LOW => "LOW"
  | NOT_FOUND => "NOT_FOUND"

/-- Model of `CollectorsDatabase.get_risk_level` (database.py:40).  The
`try/except` around the table access returns `NOT_FOUND` on an access
error; an empty selection also returns `NOT_FOUND`. -/
def get_risk_level (df : Df) (package_id : String) : RiskLevel :=
  match findRow df package_id with
  | Except.error _ => RiskLevel.NOT_FOUND
  | Except.ok Option.none => RiskLevel.NOT_FOUND
  | Except.ok (some row) =>
    let frequency := _parse_frequency row.collection_frequency
    if frequency > 75 then RiskLevel.HIGH
    else if frequency > 25 then RiskLevel.MEDIUM
    else RiskLevel.LOW

/-- Model of `CollectorsDatabase.get_risk_score` (database.py:61),
documented in the source as a 0–100 score: `min(100, base_score *
(1.0 + len(data_types) * 0.1))`, with 0.0 for a missing package or an
access error. -/
def get_risk_score (df : Df) (package_id : String) : ℚ :=
  match findRow df package_id with
  | Except.error _ => 0
  | Except.ok Option.none => 0
  | Except.ok (some row) =>
    let base_score : ℚ := (_parse_frequency row.collection_frequency : ℚ)
    let data_types := _parse_data_types row.data_types
    let sensitive_multiplier : ℚ := 1 + (data_types.length : ℚ) * (1 / 10)
    pyMin 100 (base_score * sensitive_multiplier)

/-- Model of `CollectorsDatabase.get_risk_factors` (database.py:81). -/
def get_risk_factors (df : Df) (package_id : String) : List String :=
  match findRow df package_id with
  | Except.error _ => []
  | Except.ok Option.none => []
  | Except.ok (some row) =>
    let frequency := _parse_frequency row.collection_frequency
    let freqFactors :=
      if frequency > 75 then ["High data collection frequency"]
      else if frequency > 25 then ["Moderate data collection frequency"]
      else []
    let data_types := _parse_data_types row.data_types
    freqFactors
      ++ (if data_types.contains "location".data then ["Collects location data"] else [])
      ++ (if data_types.contains "contacts".data then ["Accesses contact information"] else [])
      ++ (if data_types.contains "camera".data then ["Uses camera"] else [])
      ++ (if data_types.contains "microphone".data then ["Uses microphone"] else [])

/-- Model of `CollectorsDatabase.get_known_behaviors` (database.py:115). -/
def get_known_behaviors (df : Df) (package_id : String) : List PyStr :=
  match findRow df package_id with
  | Except.error _ => []
  | Except.ok Option.none => []
  | Except.ok (some row) =>
    let data_types := _parse_data_types row.data_types
    let frequency := _parse_frequency row.collection_frequency
    (if frequency > 0 then
      [("Collects data approximately " ++ toString frequency ++ " times per day").data]
     else [])
      ++ data_types.map (fun t => "Known to collect ".data ++ t ++ " data".data)

/-- Model of `CollectorsDatabase.get_app_details` (database.py:24): the
parsed frequency and data types of the row, or `none` when the package
is absent or the table access raises. -/
def db_get_app_details (df : Df) (package_id : String) : Option (ℤ × List PyStr) :=
  match findRow df package_id with
  | Except.error _ => Option.none
  | Except.ok Option.none => Option.none
  | Except.ok (some row) =>
    some (_parse_frequency row.collection_frequency, _parse_data_types row.data_types)

/-! ### `utils/risk.py` — the permission categorizer -/

/-- The static `PERMISSION_CATEGORIES` table of `utils/risk.py`, in dict
insertion order.  Python set values are modelled as lists used only for
membership tests. -/
def PERMISSION_CATEGORIES : List (String × List String) :=
  [("location",
    ["android.permission.ACCESS_FINE_LOCATION",
     "android.permission.ACCESS_COARSE_LOCATION",
     "android.permission.ACCESS_BACKGROUND_LOCATION"]),
   ("camera",
    ["android.permission.CAMERA"]),
   ("microphone",
    ["android.permission.RECORD_AUDIO"]),
   ("contacts",
    ["android.permission.READ_CONTACTS",
     "android.permission.WRITE_CONTACTS",
     "android.permission.GET_ACCOUNTS"]),
   ("storage",
    ["android.permission.READ_EXTERNAL_STORAGE",
     "android.permission.WRITE_EXTERNAL_STORAGE",
     "android.permission.MANAGE_EXTERNAL_STORAGE",
     "android.permission.ACCESS_MEDIA_LOCATION"]),
   ("phone",
    ["android.permission.READ_PHONE_STATE",
     "android.permission.CALL_PHONE",
     "android.permission.READ_CALL_LOG",
     "android.permission.WRITE_CALL_LOG",
     "android.permission.ADD_VOICEMAIL",
     "android.permission.USE_SIP",
     "android.permission.PROCESS_OUTGOING_CALLS"]),
   ("sms",
    ["android.permission.SEND_SMS",
     "android.permission.RECEIVE_SMS",
     "android.permission.READ_SMS",
     "android.permission.RECEIVE_WAP_PUSH",
     "android.permission.RECEIVE_MMS"]),
   ("calendar",
    ["android.permission.READ_CALENDAR",
     "android.permission.WRITE_CALENDAR"]),
   ("sensors",
    ["android.permission.BODY_SENSORS",
     "android.permission.USE_FINGERPRINT",
     "android.permission.USE_BIOMETRIC"]),
   ("activity_recognition",
    ["android.permission.ACTIVITY_RECOGNITION"])]

/-- `PRIVACY_CRITICAL_PERMISSIONS`: the union of all category member
sets (again, a membership-only set modelled as a list). -/
def PRIVACY_CRITICAL_PERMISSIONS : List String :=
  (PERMISSION_CATEGORIES.map Prod.snd).flatten

/-- The result dictionary built by `categorize_permissions`:
`privacy_critical`, the per-category dict (insertion-ordered), and
`other`. -/
structure CatResult where
  privacy_critical : List String
  categories : List (String × List String)
  other : List String
deriving DecidableEq

/-- The inner `for category, perms in PERMISSION_CATEGORIES.items()`
loop with its `break`: the first category containing `p`, if any. -/
def firstCategory (p : String) : Option String :=
  (PERMISSION_CATEGORIES.find? (fun kv => kv.snd.contains p)).map Prod.fst

/-- Append `p` to the bucket of category `c` in the category dict. -/
def addToCategory (cats : List (String × List String)) (c p : String) :
    List (String × List String) :=
  cats.map (fun kv => if kv.fst = c then (kv.fst, kv.snd ++ [p]) else kv)

/-- One iteration of the `for permission in permissions` loop of
`categorize_permissions` (risk.py:78). -/
def categorizeStep (st : CatResult) (p : String) : CatResult :=
  let st1 :=
    if PRIVACY_CRITICAL_PERMISSIONS.contains p then
      { st with privacy_critical := st.privacy_critical ++ [p] }
    else st
  match firstCategory p with
  | some c => { st1 with categories := addToCategory st1.categories c p }
  | none => { st1 with other := st1.other ++ [p] }

/-- Model of `categorize_permissions` (risk.py:70): fold the loop over
the input, starting from empty buckets for every category, then drop the
empty categories. -/
def categorize_permissions (permissions : List String) : CatResult :=
  let st := permissions.foldl categorizeStep
    ⟨[], PERMISSION_CATEGORIES.map (fun kv => (kv.fst, [])), []⟩
  { st with categories := st.categories.filter (fun kv => !kv.snd.isEmpty) }

/-! ### `utils/adb.py` — the `pm dump` line parser -/

/-- The three-way permission dictionary of an `AppDetails` record. -/
structure Permissions where
  requested : List PyStr
  granted : List PyStr
  denied : List PyStr
deriving DecidableEq

/-- The `details` dictionary built by `AndroidDevice.get_app_details`
(adb.py:63), with its documented defaults. -/
structure AppDetails where
  package_id : PyStr
  app_name : PyStr
  permissions : Permissions
  install_source : Option PyStr
  first_install_time : Option PyStr
  last_update_time : Option PyStr
  network_permissions : List PyStr
  shared_libraries : List PyStr
  shared_user_ids : List PyStr
deriving DecidableEq

/-- The `current_section` tracking variable of the parsing loop. -/
inductive PmSection where
  | start | requested | runtime | install
deriving DecidableEq

/-- The default `details` dictionary for `package_id` (adb.py:63):
`app_name` falls back to the package identifier, everything else is
empty/absent. -/
def defaultDetails (package_id : PyStr) : AppDetails :=
  { package_id := package_id
    app_name := package_id
    permissions := ⟨[], [], []⟩
    install_source := none
    first_install_time := none
    last_update_time := none
    network_permissions := []
    shared_libraries := []
    shared_user_ids := [] }

/-- The line patterns of `AndroidDevice.get_app_details`, named so that
proofs can treat them as opaque tokens. -/
def kwApplicationInfo : PyStr := "applicationInfo".data

/-- The `label=` marker inside an applicationInfo line. -/
def kwLabel : PyStr := "label=".data

/-- A double quote, delimiting a quoted label. -/
def kwQuote : PyStr := "\"".data

/-- The `installInitiator:` marker. -/
def kwInstallInitiator : PyStr := "installInitiator:".data

/-- The `firstInstallTime=` marker. -/
def kwFirstInstallTime : PyStr := "firstInstallTime=".data

/-- The `lastUpdateTime=` marker. -/
def kwLastUpdateTime : PyStr := "lastUpdateTime=".data

/-- The requested-permissions section header. -/
def kwRequestedSection : PyStr := "requested permissions:".data

/-- The runtime-permissions section header. -/
def kwRuntimeSection : PyStr := "runtime permissions:".data

/-- The install-permissions section header. -/
def kwInstallSection : PyStr := "install permissions:".data

/-- The permission-name marker a requested-section line starts with. -/
def kwAndroidPermission : PyStr := "android.permission.".data

/-- The `granted=true` marker of a runtime-section line. -/
def kwGrantedTrue : PyStr := "granted=true".data

/-- The `granted=false` marker of a runtime-section line. -/
def kwGrantedFalse : PyStr := "granted=false".data

/-- The `INTERNET` marker of a network-permission line. -/
def kwInternet : PyStr := "INTERNET".data

/-- The `NETWORK` marker of a network-permission line. -/
def kwNetwork : PyStr := "NETWORK".data

/-- The `libraryInfo` marker of a shared-library line. -/
def kwLibraryInfo : PyStr := "libraryInfo".data

/-- The `sharedUser=` marker of a shared-user line. -/
def kwSharedUser : PyStr := "sharedUser=".data

/-- The app-name extraction of adb.py:84-98, as one partial extraction:
`none` models both "pattern not present" and the caught `IndexError`
(empty token list after `label=`), in which case the default name is
kept. -/
def extractLabel (line : PyStr) : Option PyStr :=
  if containsSub line kwLabel then
    let label_part := (pySplit kwLabel line).getD 1 []
    if containsSub label_part kwQuote then
      some ((pySplit kwQuote label_part).getD 1 [])
    else
      match pySplitWs label_part with
      | [] => none
      | t :: _ => some t
  else none

/-- Python `line.split(pat)[1]`, the text between the first and second
occurrence of `pat` (total here; callers guarantee `pat` occurs). -/
def afterSub (pat line : PyStr) : PyStr := (pySplit pat line).getD 1 []

/-- Python `s.split(' ')[0]`: the token up to the first space. -/
def tokenToSpace (s : PyStr) : PyStr := (pySplit " ".data s).getD 0 []

/-- Python `line.split(':')[0]`: the leading colon-delimited token. -/
def colonHead (line : PyStr) : PyStr := (pySplit ":".data line).getD 0 []

/-- One iteration of the `for line in result.stdout.split('\n')` loop of
`AndroidDevice.get_app_details` (adb.py:80-138), mirroring the
`if/elif` chain branch for branch. -/
def processLine (st : AppDetails × PmSection) (rawLine : PyStr) : AppDetails × PmSection :=
  let line := pyStrip rawLine
  let d := st.fst
  let sec := st.snd
  if containsSub line kwApplicationInfo then
    (match extractLabel line with
     | some nm => ({ d with app_name := nm }, sec)
     | none => (d, sec))
  else if containsSub line kwInstallInitiator then
    ({ d with install_source := some (pyStrip (afterSub kwInstallInitiator line)) }, sec)
  else if containsSub line kwFirstInstallTime then
    ({ d with first_install_time := some (tokenToSpace (afterSub kwFirstInstallTime line)) }, sec)
  else if containsSub line kwLastUpdateTime then
    ({ d with last_update_time := some (tokenToSpace (afterSub kwLastUpdateTime line)) }, sec)
  else if containsSub line kwRequestedSection then
    (d, PmSection.requested)
  else if containsSub line kwRuntimeSection then
    (d, PmSection.runtime)
  else if containsSub line kwInstallSection then
    (d, PmSection.install)
  else if sec = PmSection.requested && leadsWith kwAndroidPermission line then
    ({ d with permissions := { d.permissions with requested := d.permissions.requested ++ [pyStrip line] } }, sec)
  else if sec = PmSection.runtime && containsSub line kwGrantedTrue then
    ({ d with permissions := { d.permissions with granted := d.permissions.granted ++ [pyStrip (colonHead line)] } }, sec)
  else if sec = PmSection.runtime && containsSub line kwGrantedFalse then
    ({ d with permissions := { d.permissions with denied := d.permissions.denied ++ [pyStrip (colonHead line)] } }, sec)
  else if containsSub line kwInternet || containsSub line kwNetwork then
    ({ d with network_permissions := d.network_permissions ++ [pyStrip line] }, sec)
  else if containsSub line kwLibraryInfo then
    ({ d with shared_libraries := d.shared_libraries ++ [pyStrip line] }, sec)
  else if containsSub line kwSharedUser then
    ({ d with shared_user_ids := d.shared_user_ids ++ [pyStrip (afterSub kwSharedUser line)] }, sec)
  else
    (d, sec)

/-- Model of `AndroidDevice.get_app_details` (adb.py:55), applied to the
raw text of a successful `pm dump` invocation: split into lines and fold
the per-line parser over them. -/
def adb_get_app_details (package_id : PyStr) (dump : PyStr) : AppDetails :=
  ((pySplit "\n".data dump).foldl processLine (defaultDetails package_id, PmSection.start)).fst

/-! ### `scanner.py` — the scan loop -/

/-- One value of the `results[package_id]` dictionary built by
`PrivacyScanner.scan_apps` (scanner.py:62). -/
structure ScanEntry where
  app_name : PyStr
  package_id : String
  permissions : Permissions
  install_source : Option PyStr
  first_install_time : Option PyStr
  last_update_time : Option PyStr
  risk_level : String
  collection_frequency : ℤ
  data_types : List PyStr
deriving DecidableEq

/-- The collaborators `scan_apps` talks to: the device's package
enumeration and per-package detail dump (each of which can raise a
`RuntimeError` on an `adb` failure), and the loaded collectors table. -/
structure ScanDeps where
  installed : Except String (List String)
  details : String → Except String AppDetails
  df : Df

/-- The body of the `for i, package_id in enumerate(installed_apps)`
loop (scanner.py:46-81): a raising detail fetch is caught and the
package is skipped; otherwise one entry is appended under the package
identifier. -/
def scanStep (deps : ScanDeps) (results : List (String × ScanEntry)) (pkg : String) :
    List (String × ScanEntry) :=
  match deps.details pkg with
  | Except.error _ => results
  | Except.ok ad =>
    let app_data := db_get_app_details deps.df pkg
    let risk_level := get_risk_level deps.df pkg
    results ++ [(pkg,
      { app_name := ad.app_name
        package_id := pkg
        permissions := ad.permissions
        install_source := ad.install_source
        first_install_time := ad.first_install_time
        last_update_time := ad.last_update_time
        risk_level := risk_level.name
        collection_frequency := (app_data.map Prod.fst).getD 0
        data_types := (app_data.map Prod.snd).getD [] })]

/-- Model of `PrivacyScanner.scan_apps` (scanner.py:36): a failure of
the package enumeration propagates (the outer `except` re-raises);
otherwise the per-package loop runs, skipping packages whose processing
raised. -/
def scan_apps (deps : ScanDeps) : Except String (List (String × ScanEntry)) :=
  match deps.installed with
  | Except.error e => Except.error e
  | Except.ok installed_apps => Except.ok (installed_apps.foldl (scanStep deps) [])

/-! ### Lookup-shape lemmas for the database model -/

/-- On a loaded table, `get_risk_level` of a found row only looks at the
parsed frequency of that row. -/
theorem get_risk_level_found {rows : List Row} {row : Row} {pkg : String}
    (h : rows.find? (fun r => r.apk == pkg) = some row) :
    get_risk_level (Except.ok rows) pkg =
      (if _parse_frequency row.collection_frequency > 75 then RiskLevel.HIGH
       else if _parse_frequency row.collection_frequency > 25 then RiskLevel.MEDIUM
       else RiskLevel.LOW) := by
  simp [get_risk_level, findRow, Except.map, h]

/-- On a loaded table, `get_risk_score` of a found row is the capped
frequency × multiplier formula on that row. -/
theorem get_risk_score_found {rows : List Row} {row : Row} {pkg : String}
    (h : rows.find? (fun r => r.apk == pkg) = some row) :
    get_risk_score (Except.ok rows) pkg =
      pyMin 100 ((_parse_frequency row.collection_frequency : ℚ) *
        (1 + ((_parse_data_types row.data_types).length : ℚ) * (1 / 10))) := by
  simp [get_risk_score, findRow, Except.map, h]

/-- On a loaded table, `get_known_behaviors` of a found row is the
frequency summary plus one line per parsed data type. -/
theorem get_known_behaviors_found {rows : List Row} {row : Row} {pkg : String}
    (h : rows.find? (fun r => r.apk == pkg) = some row) :
    get_known_behaviors (Except.ok rows) pkg =
      (if _parse_frequency row.collection_frequency > 0 then
        [("Collects data approximately " ++ toString (_parse_frequency row.collection_frequency)
          ++ " times per day").data]
       else [])
        ++ (_parse_data_types row.data_types).map
            (fun t => "Known to collect ".data ++ t ++ " data".data) := by
  simp [get_known_behaviors, findRow, Except.map, h]

/-! ### Claim theorems -/

/-- C2: for a package present in the reference table with parsed
collection frequency `f`, `get_risk_level` returns HIGH iff `f > 75`,
MEDIUM iff `25 < f ≤ 75`, and LOW iff `f ≤ 25`; for a package absent
from the table it returns NOT_FOUND regardless of any frequency. -/
theorem C2_risk_level_thresholds (rows : List Row) (row : Row) (pkg : String) :
    (rows.find? (fun r => r.apk == pkg) = some row →
      ((get_risk_level (Except.ok rows) pkg = RiskLevel.HIGH ↔
          75 < _parse_frequency row.collection_frequency) ∧
       (get_risk_level (Except.ok rows) pkg = RiskLevel.MEDIUM ↔
          25 < _parse_frequency row.collection_frequency ∧
            _parse_frequency row.collection_frequency ≤ 75) ∧
       (get_risk_level (Except.ok rows) pkg = RiskLevel.LOW ↔
          _parse_frequency row.collection_frequency ≤ 25))) ∧
    (rows.find? (fun r => r.apk == pkg) = none →
      get_risk_level (Except.ok rows) pkg = RiskLevel.NOT_FOUND) := by
  constructor
  · intro h
    rw [get_risk_level_found h]
    by_cases h75 : 75 < _parse_frequency row.collection_frequency
    · refine ⟨?_, ?_, ?_⟩ <;> simp [h75] <;> omega
    · by_cases h25 : 25 < _parse_frequency row.collection_frequency
      · refine ⟨?_, ?_, ?_⟩ <;> simp [h75, h25] <;> omega
      · refine ⟨?_, ?_, ?_⟩ <;> simp [h75, h25] <;> omega
  · intro h
    simp [get_risk_level, findRow, Except.map, h]

/-- Witness for C2 at a concrete table: the row for `com.app.high` has
frequency string "80", so the level is HIGH and 80 > 75. -/
theorem C2_risk_level_thresholds_witness :
    ([⟨"com.app.high", CellValue.str "80".data, CellValue.none⟩] :
        List Row).find? (fun r => r.apk == "com.app.high") =
      some ⟨"com.app.high", CellValue.str "80".data, CellValue.none⟩ ∧
    (get_risk_level (Except.ok [⟨"com.app.high", CellValue.str "80".data, CellValue.none⟩])
        "com.app.high" = RiskLevel.HIGH ↔
      75 < _parse_frequency (CellValue.str "80".data)) :=
  ⟨by decide,
   ((C2_risk_level_thresholds
      [⟨"com.app.high", CellValue.str "80".data, CellValue.none⟩]
      ⟨"com.app.high", CellValue.str "80".data, CellValue.none⟩
      "com.app.high").1 (by decide)).1⟩

/-- C8: for a package absent from the reference table, `get_risk_level`
returns NOT_FOUND, `get_risk_score` returns 0.0, and `get_risk_factors`
and `get_known_behaviors` return empty lists; and a raising table access
makes each operation return that same default instead of propagating. -/
theorem C8_absent_and_error_defaults (df : Df) (pkg : String) (e : String) (rows : List Row) :
    (df = Except.error e →
      get_risk_level df pkg = RiskLevel.NOT_FOUND ∧
      get_risk_score df pkg = 0 ∧
      get_risk_factors df pkg = [] ∧
      get_known_behaviors df pkg = []) ∧
    (df = Except.ok rows → rows.find? (fun r => r.apk == pkg) = none →
      get_risk_level df pkg = RiskLevel.NOT_FOUND ∧
      get_risk_score df pkg = 0 ∧
      get_risk_factors df pkg = [] ∧
      get_known_behaviors df pkg = []) := by
  constructor
  · rintro rfl
    refine ⟨rfl, rfl, rfl, rfl⟩
  · rintro rfl h
    refine ⟨?_, ?_, ?_, ?_⟩ <;>
      simp [get_risk_level, get_risk_score, get_risk_factors, get_known_behaviors,
        findRow, Except.map, h]

/-- Witness for C8 at a concrete table that does not contain the looked
up package. -/
theorem C8_absent_and_error_defaults_witness :
    (([⟨"com.other", CellValue.num 10, CellValue.none⟩] : List Row).find?
        (fun r => r.apk == "com.missing") = none) ∧
    (get_risk_level (Except.ok [⟨"com.other", CellValue.num 10, CellValue.none⟩])
        "com.missing" = RiskLevel.NOT_FOUND ∧
      get_risk_score (Except.ok [⟨"com.other", CellValue.num 10, CellValue.none⟩])
        "com.missing" = 0 ∧
      get_risk_factors (Except.ok [⟨"com.other", CellValue.num 10, CellValue.none⟩])
        "com.missing" = [] ∧
      get_known_behaviors (Except.ok [⟨"com.other", CellValue.num 10, CellValue.none⟩])
        "com.missing" = []) :=
  ⟨by decide,
   (C8_absent_and_error_defaults
      (Except.ok [⟨"com.other", CellValue.num 10, CellValue.none⟩]) "com.missing" ""
      [⟨"com.other", CellValue.num 10, CellValue.none⟩]).2 rfl (by decide)⟩

/-- C9: whenever `get_risk_level` classifies a package as HIGH, the
numeric `get_risk_score` of the same package on the same table is
strictly greater than 75: the two classifications never contradict each
other at the HIGH threshold. -/
theorem C9_high_level_implies_high_score (df : Df) (pkg : String)
    (h : get_risk_level df pkg = RiskLevel.HIGH) :
    75 < get_risk_score df pkg := by
  rcases hfr : findRow df pkg with e | op
  · rw [get_risk_level] at h
    rw [hfr] at h
    exact absurd h (by simp)
  · rcases op with _ | row
    · rw [get_risk_level] at h
      rw [hfr] at h
      exact absurd h (by simp)
    · rw [get_risk_level] at h
      rw [hfr] at h
      simp only at h
      by_cases h75 : _parse_frequency row.collection_frequency > 75
      · rw [get_risk_score, hfr]
        simp only
        rw [pyMin]
        set f : ℚ := (_parse_frequency row.collection_frequency : ℚ) with hf
        set n : ℚ := ((_parse_data_types row.data_types).length : ℚ) with hn
        have hfgt : (75 : ℚ) < f := by
          rw [hf]
          exact_mod_cast h75
        have hnn : (0 : ℚ) ≤ n := by
          rw [hn]
          positivity
        have hmul : f ≤ f * (1 + n * (1 / 10)) := by nlinarith
        split
        · norm_num
        · linarith
      · exfalso
        rw [if_neg h75] at h
        by_cases h25 : _parse_frequency row.collection_frequency > 25
        · rw [if_pos h25] at h
          exact absurd h (by simp)
        · rw [if_neg h25] at h
          exact absurd h (by simp)

/-- Witness for C9: a concrete row with frequency string "80" is
classified HIGH, and its score exceeds 75. -/
theorem C9_high_level_implies_high_score_witness :
    get_risk_level (Except.ok [⟨"com.app.hi", CellValue.str "80".data, CellValue.none⟩])
        "com.app.hi" = RiskLevel.HIGH ∧
    75 < get_risk_score (Except.ok [⟨"com.app.hi", CellValue.str "80".data, CellValue.none⟩])
        "com.app.hi" :=
  ⟨by decide,
   C9_high_level_implies_high_score
     (Except.ok [⟨"com.app.hi", CellValue.str "80".data, CellValue.none⟩])
     "com.app.hi" (by decide)⟩

/-- C3 counterexample: `_parse_frequency` does not coerce every value to
a NON-NEGATIVE integer — a negative numeric cell value is truncated but
not clamped, so it comes back negative. -/
theorem C3_counterexample_negative_numeric :
    _parse_frequency (CellValue.num (-5)) = -5 ∧
    _parse_frequency (CellValue.num (-5)) < 0 := by
  constructor
  · decide
  · decide

/-- C3 (amended): `_parse_frequency` coerces every cell value to an
integer without raising: numeric values truncate toward zero - the floor
for non-negative values, the ceiling for negative ones, so the numeric
cell -7.5 parses to -7 (and a negative value stays negative); string
values yield the non-negative integer parsed from the first run of
decimal digits; missing/empty/non-matching values yield 0; in particular
the malformed string "invalid" parses to 0 and the package gets risk
level LOW. -/
theorem C3_parse_frequency_total (q : ℚ) (s : PyStr) (ds : List Char) :
    (0 ≤ q → _parse_frequency (CellValue.num q) = ⌊q⌋) ∧
    (q < 0 → _parse_frequency (CellValue.num q) = ⌈q⌉) ∧
    (_parse_frequency (CellValue.num ((-15 : ℚ) / 2)) = -7) ∧
    (0 ≤ _parse_frequency (CellValue.str s)) ∧
    (s ≠ [] → firstDigitRun s = some ds →
      _parse_frequency (CellValue.str s) = (natOfDigits ds : ℤ)) ∧
    (firstDigitRun s = none → _parse_frequency (CellValue.str s) = 0) ∧
    (_parse_frequency CellValue.none = 0) ∧
    (_parse_frequency (CellValue.str "invalid".data) = 0) ∧
    (get_risk_level (Except.ok [⟨"com.bad.app", CellValue.str "invalid".data, CellValue.none⟩])
        "com.bad.app" = RiskLevel.LOW) := by
  have hfloor : ∀ r : ℚ, 0 ≤ r → _parse_frequency (CellValue.num r) = ⌊r⌋ := by
    intro r hr
    rw [_parse_frequency]
    rw [ratTrunc, if_pos (Rat.num_nonneg.mpr hr), Rat.floor_def]
  have hceil : ∀ r : ℚ, r < 0 → _parse_frequency (CellValue.num r) = ⌈r⌉ := by
    intro r hr
    have hnum : ¬ 0 ≤ r.num := by
      intro hc
      exact absurd (Rat.num_nonneg.mp hc) (not_le.mpr hr)
    have h2 : (⌈r⌉ : ℤ) = -⌊-r⌋ := by
      calc (⌈r⌉ : ℤ) = ⌈-(-r)⌉ := by rw [neg_neg]
      _ = -⌊-r⌋ := Int.ceil_neg
    rw [_parse_frequency]
    rw [ratTrunc, if_neg hnum, h2, Rat.floor_def, Rat.neg_num, Rat.neg_den]
  refine ⟨hfloor q, hceil q, ?_, ?_, ?_, ?_, rfl, by decide, by decide⟩
  · rw [hceil ((-15 : ℚ) / 2) (by norm_num)]
    norm_num [Int.ceil_eq_iff]
  · rw [_parse_frequency]
    by_cases hs : s = []
    · simp [hs]
    · rw [if_neg hs]
      rcases hrun : firstDigitRun s with _ | ds'
    
      · simp
      · simp
  · intro hs hrun
    rw [_parse_frequency, if_neg hs, hrun]
  · intro hrun
    rw [_parse_frequency]
    by_cases hs : s = []
    · simp [hs]
    · rw [if_neg hs, hrun]

/-- Witness for C3 at concrete inputs: the non-negative numeric cell 200
parses to its floor, and "2 times a day" has first digit run "2" and
parses to 2. -/
theorem C3_parse_frequency_total_witness :
    ((0 : ℚ) ≤ 200) ∧
    ("2 times a day".data ≠ ([] : List Char)) ∧
    firstDigitRun "2 times a day".data = some ['2'] ∧
    _parse_frequency (CellValue.num 200) = ⌊(200 : ℚ)⌋ ∧
    _parse_frequency (CellValue.str "2 times a day".data) = ((natOfDigits ['2'] : ℕ) : ℤ) :=
  ⟨by decide, by decide, by decide,
   (C3_parse_frequency_total 200 "2 times a day".data ['2']).1 (by decide),
   (C3_parse_frequency_total 200 "2 times a day".data ['2']).2.2.2.2.1
     (by decide) (by decide)⟩

/-- C4 (code bug): `get_risk_score` is documented in the source as a
0–100 score, but a reference row with a negative numeric collection
frequency produces a negative score, and adding a data type makes the
score DECREASE (-10 → -11), violating both the claimed [0,100] range and
the claimed monotonicity in the number of data types. -/
theorem C4_negative_frequency_breaks_range :
    get_risk_score (Except.ok [⟨"com.neg.app", CellValue.num (-10),
        CellValue.str "location".data⟩]) "com.neg.app" = -11 ∧
    get_risk_score (Except.ok [⟨"com.neg.app", CellValue.num (-10),
        CellValue.none⟩]) "com.neg.app" = -10 ∧
    get_risk_score (Except.ok [⟨"com.neg.app", CellValue.num (-10),
        CellValue.str "location".data⟩]) "com.neg.app" < 0 ∧
    get_risk_score (Except.ok [⟨"com.neg.app", CellValue.num (-10),
        CellValue.str "location".data⟩]) "com.neg.app" <
      get_risk_score (Except.ok [⟨"com.neg.app", CellValue.num (-10),
        CellValue.none⟩]) "com.neg.app" := by
  have h1 : get_risk_score (Except.ok [⟨"com.neg.app", CellValue.num (-10),
      CellValue.str "location".data⟩]) "com.neg.app" = -11 := by
    have hfind : ([⟨"com.neg.app", CellValue.num (-10), CellValue.str "location".data⟩] :
        List Row).find? (fun r => r.apk == "com.neg.app")
        = some ⟨"com.neg.app", CellValue.num (-10), CellValue.str "location".data⟩ := by
      decide
    rw [get_risk_score_found hfind]
    have hf : _parse_frequency (CellValue.num (-10)) = -10 := by decide
    have hd : _parse_data_types (CellValue.str "location".data) = ["location".data] := by decide
    rw [hf, hd]
    norm_num [pyMin]
  have h2 : get_risk_score (Except.ok [⟨"com.neg.app", CellValue.num (-10),
      CellValue.none⟩]) "com.neg.app" = -10 := by
    have hfind : ([⟨"com.neg.app", CellValue.num (-10), CellValue.none⟩] :
        List Row).find? (fun r => r.apk == "com.neg.app")
        = some ⟨"com.neg.app", CellValue.num (-10), CellValue.none⟩ := by
      decide
    rw [get_risk_score_found hfind]
    have hf : _parse_frequency (CellValue.num (-10)) = -10 := by decide
    rw [hf]
    norm_num [pyMin, _parse_data_types]
  refine ⟨h1, h2, ?_, ?_⟩
  · rw [h1]
    norm_num
  · rw [h1, h2]
    norm_num

/-- Modelled from the spec sentence "min(100, frequency × (1 + 0.1 ×
count_of_distinct_data_types))": the claimed score formula, counting
DISTINCT data-type tags of the row. -/
def spec_risk_score_distinct (frequency : ℤ) (data_types : List PyStr) : ℚ :=
  pyMin 100 ((frequency : ℚ) * (1 + (data_types.dedup.length : ℚ) * (1 / 10)))

/-- Score formula actually implemented: the same shape, but counting
every parsed data-type token (duplicates and empty tokens included). -/
def risk_score_formula (frequency : ℤ) (data_types : List PyStr) : ℚ :=
  pyMin 100 ((frequency : ℚ) * (1 + (data_types.length : ℚ) * (1 / 10)))

/-- C1 counterexample: on a row with `collection_frequency` "50" and
`data_types` "location,location" the code scores 50 × 1.2 = 60 (each of
the two tokens counts), while the claimed distinct-count formula gives
50 × 1.1 = 55. -/
theorem C1_counterexample_duplicate_tokens :
    get_risk_score (Except.ok [⟨"com.dup.app", CellValue.str "50".data,
        CellValue.str "location,location".data⟩]) "com.dup.app" = 60 ∧
    spec_risk_score_distinct
      (_parse_frequency (CellValue.str "50".data))
      (_parse_data_types (CellValue.str "location,location".data)) = 55 ∧
    get_risk_score (Except.ok [⟨"com.dup.app", CellValue.str "50".data,
        CellValue.str "location,location".data⟩]) "com.dup.app" ≠
      spec_risk_score_distinct
        (_parse_frequency (CellValue.str "50".data))
        (_parse_data_types (CellValue.str "location,location".data)) := by
  have hf : _parse_frequency (CellValue.str "50".data) = 50 := by decide
  have hd : _parse_data_types (CellValue.str "location,location".data)
      = ["location".data, "location".data] := by decide
  have hdedup : (["location".data, "location".data] : List PyStr).dedup
      = ["location".data] := by decide
  have h1 : get_risk_score (Except.ok [⟨"com.dup.app", CellValue.str "50".data,
      CellValue.str "location,location".data⟩]) "com.dup.app" = 60 := by
    have hfind : ([⟨"com.dup.app", CellValue.str "50".data,
        CellValue.str "location,location".data⟩] :
        List Row).find? (fun r => r.apk == "com.dup.app")
        = some ⟨"com.dup.app", CellValue.str "50".data,
            CellValue.str "location,location".data⟩ := by
      decide
    rw [get_risk_score_found hfind]
    rw [hf, hd]
    norm_num [pyMin]
  have h2 : spec_risk_score_distinct
      (_parse_frequency (CellValue.str "50".data))
      (_parse_data_types (CellValue.str "location,location".data)) = 55 := by
    rw [hf, hd, spec_risk_score_distinct, hdedup]
    norm_num [pyMin]
  refine ⟨h1, h2, ?_⟩
  rw [h1, h2]
  norm_num

/-- C1 (amended): for every package present in the reference table,
`get_risk_score` returns exactly min(100, frequency × (1 + 0.1 ×
count_of_parsed_data_type_tokens)) — every comma-separated token counts,
duplicates and empty tokens included; in particular a row with
collection_frequency 75 and data_types "location" scores
75 × 1.1 = 82.5. -/
theorem C1_risk_score_formula (rows : List Row) (row : Row) (pkg : String)
    (h : rows.find? (fun r => r.apk == pkg) = some row) :
    get_risk_score (Except.ok rows) pkg =
      risk_score_formula (_parse_frequency row.collection_frequency)
        (_parse_data_types row.data_types) ∧
    get_risk_score (Except.ok [⟨"com.med.app", CellValue.str "75".data,
        CellValue.str "location".data⟩]) "com.med.app" = 165 / 2 := by
  constructor
  · rw [get_risk_score_found h, risk_score_formula]
  · have hfind : ([⟨"com.med.app", CellValue.str "75".data,
        CellValue.str "location".data⟩] :
        List Row).find? (fun r => r.apk == "com.med.app")
        = some ⟨"com.med.app", CellValue.str "75".data, CellValue.str "location".data⟩ := by
      decide
    rw [get_risk_score_found hfind]
    have hf : _parse_frequency (CellValue.str "75".data) = 75 := by decide
    have hd : _parse_data_types (CellValue.str "location".data) = ["location".data] := by decide
    rw [hf, hd]
    norm_num [pyMin]

/-- Witness for C1 (amended) at the concrete "75 / location" row. -/
theorem C1_risk_score_formula_witness :
    ([⟨"com.med.app", CellValue.str "75".data, CellValue.str "location".data⟩] :
        List Row).find? (fun r => r.apk == "com.med.app") =
      some ⟨"com.med.app", CellValue.str "75".data, CellValue.str "location".data⟩ ∧
    get_risk_score (Except.ok [⟨"com.med.app", CellValue.str "75".data,
        CellValue.str "location".data⟩]) "com.med.app" =
      risk_score_formula (_parse_frequency (CellValue.str "75".data))
        (_parse_data_types (CellValue.str "location".data)) :=
  ⟨by decide,
   (C1_risk_score_formula
      [⟨"com.med.app", CellValue.str "75".data, CellValue.str "location".data⟩]
      ⟨"com.med.app", CellValue.str "75".data, CellValue.str "location".data⟩
      "com.med.app" (by decide)).1⟩

/-- C10: a non-empty data_types string yields one token per
comma-separated segment (stripped, lower-cased, duplicates preserved,
whitespace-only segments becoming empty tokens — "location," gives
["location", ""]); every token adds 0.1 to the risk-score multiplier and
produces one "Known to collect ... data" entry in the behaviours. -/
theorem C10_data_type_tokens (s : PyStr) (rows : List Row) (row : Row) (pkg : String)
    (hs : s ≠ []) (hfind : rows.find? (fun r => r.apk == pkg) = some row)
    (hdata : row.data_types = CellValue.str s) :
    _parse_data_types (CellValue.str s) = (pySplit [','] s).map (fun t => pyLower (pyStrip t)) ∧
    _parse_data_types (CellValue.str "location,".data) = ["location".data, []] ∧
    get_risk_score (Except.ok rows) pkg =
      pyMin 100 ((_parse_frequency row.collection_frequency : ℚ) *
        (1 + ((pySplit [','] s).length : ℚ) * (1 / 10))) ∧
    get_known_behaviors (Except.ok rows) pkg =
      (if _parse_frequency row.collection_frequency > 0 then
        [("Collects data approximately " ++ toString (_parse_frequency row.collection_frequency)
          ++ " times per day").data]
       else [])
        ++ ((pySplit [','] s).map (fun t => pyLower (pyStrip t))).map
            (fun t => "Known to collect ".data ++ t ++ " data".data) := by
  have hparse : _parse_data_types (CellValue.str s)
      = (pySplit [','] s).map (fun t => pyLower (pyStrip t)) := by
    rw [_parse_data_types, if_neg hs]
  refine ⟨hparse, by decide, ?_, ?_⟩
  · rw [get_risk_score_found hfind, hdata, hparse, List.length_map]
  · rw [get_known_behaviors_found hfind, hdata, hparse]

/-- Witness for C10 at the concrete row "com.t" / frequency "30" /
data_types " Location,,location ". -/
theorem C10_data_type_tokens_witness :
    (" Location,,location".data ≠ ([] : List Char)) ∧
    (([⟨"com.t", CellValue.str "30".data, CellValue.str " Location,,location".data⟩] :
        List Row).find? (fun r => r.apk == "com.t") =
      some ⟨"com.t", CellValue.str "30".data, CellValue.str " Location,,location".data⟩) ∧
    _parse_data_types (CellValue.str " Location,,location".data) =
      (pySplit [','] " Location,,location".data).map (fun t => pyLower (pyStrip t)) :=
  ⟨by decide, by decide,
   (C10_data_type_tokens " Location,,location".data
      [⟨"com.t", CellValue.str "30".data, CellValue.str " Location,,location".data⟩]
      ⟨"com.t", CellValue.str "30".data, CellValue.str " Location,,location".data⟩
      "com.t" (by decide) (by decide) rfl).1⟩

/-- Did an `Except` computation succeed? -/
def exceptOk {ε α : Type} : Except ε α → Bool
  | Except.ok _ => true
  | Except.error _ => false

/-- The keys accumulated by the scan loop: the starting keys followed by
exactly the packages whose detail fetch succeeded, in order. -/
theorem scan_foldl_keys (deps : ScanDeps) (apps : List String)
    (acc : List (String × ScanEntry)) :
    (apps.foldl (scanStep deps) acc).map Prod.fst =
      acc.map Prod.fst ++ apps.filter (fun q => exceptOk (deps.details q)) := by
  induction apps generalizing acc with
  | nil => simp
  | cons p rest ih =>
    rw [List.foldl_cons, ih]
    rcases hd : deps.details p with err | ad
    · rw [scanStep, hd]
      rw [List.filter_cons_of_neg (by simp [exceptOk, hd])]
    · rw [scanStep, hd]
      rw [List.filter_cons_of_pos (by simp [exceptOk, hd])]
      simp

/-- C7: if enumerating the installed packages raises, `scan_apps`
propagates the error and produces no result; if the detail fetch for a
single package raises, that package is omitted entirely from the result
mapping and the scan continues: the result holds exactly the packages
whose fetch succeeded, in order. -/
theorem C7_scan_error_isolation (deps : ScanDeps) (e : String) (apps : List String)
    (p : String) (err : String) :
    (deps.installed = Except.error e → scan_apps deps = Except.error e) ∧
    (deps.installed = Except.ok apps → deps.details p = Except.error err →
      ∃ entries, scan_apps deps = Except.ok entries ∧
        entries.map Prod.fst = apps.filter (fun q => exceptOk (deps.details q)) ∧
        p ∉ entries.map Prod.fst) := by
  constructor
  · intro h
    rw [scan_apps, h]
  · intro h hp
    refine ⟨apps.foldl (scanStep deps) [], by rw [scan_apps, h], ?_, ?_⟩
    · rw [scan_foldl_keys]
      simp
    · rw [scan_foldl_keys]
      simp only [List.map_nil, List.nil_append]
      intro hmem
      have := List.of_mem_filter hmem
      rw [hp] at this
      simp [exceptOk] at this

/-- Witness for C7: a two-package device where the fetch for "com.a"
raises; the result contains exactly "com.b". -/
theorem C7_scan_error_isolation_witness :
    (ScanDeps.mk (Except.ok ["com.a", "com.b"])
        (fun q => if q = "com.a" then Except.error "RuntimeError"
                  else Except.ok (defaultDetails "com.b".data))
        (Except.ok [])).installed = Except.ok ["com.a", "com.b"] ∧
    (ScanDeps.mk (Except.ok ["com.a", "com.b"])
        (fun q => if q = "com.a" then Except.error "RuntimeError"
                  else Except.ok (defaultDetails "com.b".data))
        (Except.ok [])).details "com.a" = Except.error "RuntimeError" ∧
    ∃ entries,
      scan_apps (ScanDeps.mk (Except.ok ["com.a", "com.b"])
        (fun q => if q = "com.a" then Except.error "RuntimeError"
                  else Except.ok (defaultDetails "com.b".data))
        (Except.ok [])) = Except.ok entries ∧
      entries.map Prod.fst = (["com.a", "com.b"].filter (fun q => exceptOk
        ((fun q => if q = "com.a" then Except.error "RuntimeError"
                   else Except.ok (defaultDetails "com.b".data)) q))) ∧
      "com.a" ∉ entries.map Prod.fst :=
  ⟨rfl, rfl,
   (C7_scan_error_isolation
      (ScanDeps.mk (Except.ok ["com.a", "com.b"])
        (fun q => if q = "com.a" then Except.error "RuntimeError"
                  else Except.ok (defaultDetails "com.b".data))
        (Except.ok [])) "" ["com.a", "com.b"] "com.a" "RuntimeError").2 rfl rfl⟩

/-- The critical union test agrees with "some category matched": by
construction `PRIVACY_CRITICAL_PERMISSIONS` is the union of all category
member sets. -/
theorem flatten_contains_eq_find_isSome (T : List (String × List String)) (p : String) :
    ((T.map Prod.snd).flatten).contains p = (T.find? (fun kv => kv.snd.contains p)).isSome := by
  induction T with
  | nil => rfl
  | cons kv T' ih =>
    have happ : ((kv.snd ++ (T'.map Prod.snd).flatten).contains p)
        = (kv.snd.contains p || ((T'.map Prod.snd).flatten).contains p) := by
      by_cases hp : p ∈ kv.snd <;>
        by_cases hq : p ∈ (T'.map Prod.snd).flatten <;>
          simp [hp, hq, List.mem_append]
    rw [List.map_cons, List.flatten_cons, happ]
    cases h : kv.snd.contains p
    · rw [List.find?_cons_of_neg _ (by simpa using h), Bool.false_or, ih]
    · rw [List.find?_cons_of_pos _ (by simpa using h), Bool.true_or]
      rfl

/-- Membership in the critical union is exactly "firstCategory found a
category". -/
theorem crit_eq_firstCategory_isSome (p : String) :
    PRIVACY_CRITICAL_PERMISSIONS.contains p = (firstCategory p).isSome := by
  rw [PRIVACY_CRITICAL_PERMISSIONS, firstCategory,
    flatten_contains_eq_find_isSome]
  cases h : PERMISSION_CATEGORIES.find? (fun kv => kv.snd.contains p) <;> simp [h]

/-- Characterization of the categorization loop from any starting state:
each bucket receives exactly its filter of the remaining input, in input
order. -/
theorem categorize_foldl (l : List String) :
    ∀ (pc : List String) (cats : List (String × List String)) (oth : List String),
    l.foldl categorizeStep ⟨pc, cats, oth⟩ =
      ⟨pc ++ l.filter (fun p => PRIVACY_CRITICAL_PERMISSIONS.contains p),
       cats.map (fun kv => (kv.fst, kv.snd ++ l.filter (fun p => firstCategory p == some kv.fst))),
       oth ++ l.filter (fun p => (firstCategory p).isNone)⟩ := by
  induction l with
  | nil =>
    intro pc cats oth
    simp
  | cons p rest ih =>
    intro pc cats oth
    rw [List.foldl_cons]
    rcases hfc : firstCategory p with _ | c
    · have hcrit : PRIVACY_CRITICAL_PERMISSIONS.contains p = false := by
        rw [crit_eq_firstCategory_isSome, hfc]
        rfl
      have hmem : p ∉ PRIVACY_CRITICAL_PERMISSIONS := by simpa using hcrit
      have hstep : categorizeStep ⟨pc, cats, oth⟩ p = ⟨pc, cats, oth ++ [p]⟩ := by
        simp only [categorizeStep, hfc]
        simp [hmem]
      rw [hstep, ih]
      simp only [CatResult.mk.injEq]
      refine ⟨?_, ?_, ?_⟩
      · rw [List.filter_cons]
        simp [hmem]
      · apply List.map_congr_left
        intro kv _
        have hp : (firstCategory p == some kv.fst) = false := by
          rw [hfc]
          rfl
        rw [List.filter_cons]
        simp [hp]
      · rw [List.filter_cons]
        simp [hfc, List.append_assoc]
    · have hcrit : PRIVACY_CRITICAL_PERMISSIONS.contains p = true := by
        rw [crit_eq_firstCategory_isSome, hfc]
        rfl
      have hmem : p ∈ PRIVACY_CRITICAL_PERMISSIONS := by simpa using hcrit
      have hstep : categorizeStep ⟨pc, cats, oth⟩ p
          = ⟨pc ++ [p], addToCategory cats c p, oth⟩ := by
        simp only [categorizeStep, hfc]
        simp [hmem]
      rw [hstep, ih]
      simp only [CatResult.mk.injEq]
      refine ⟨?_, ?_, ?_⟩
      · rw [List.filter_cons]
        simp [hmem, List.append_assoc]
      · rw [addToCategory, List.map_map]
        apply List.map_congr_left
        intro kv _
        simp only [Function.comp_apply]
        by_cases hc : kv.fst = c
        · rw [if_pos hc]
          have hp : (firstCategory p == some kv.fst) = true := by
            rw [hfc, hc]
            simp
          rw [List.filter_cons]
          simp [hp, List.append_assoc]
        · rw [if_neg hc]
          have hp : (firstCategory p == some kv.fst) = false := by
            rw [hfc]
            simp only [beq_eq_false_iff_ne, ne_eq, Option.some.injEq]
            exact fun h => hc h.symm
          rw [List.filter_cons]
          simp [hp]
      · rw [List.filter_cons]
        simp [hfc]

/-- Closed form of `categorize_permissions`: each non-empty category
holds exactly the input permissions whose first matching category it is,
`other` holds the unmatched ones, both in input order. -/
theorem categorize_permissions_eq (l : List String) :
    categorize_permissions l =
      ⟨l.filter (fun p => PRIVACY_CRITICAL_PERMISSIONS.contains p),
       (PERMISSION_CATEGORIES.map (fun kv =>
          (kv.fst, l.filter (fun p => firstCategory p == some kv.fst)))).filter
         (fun kv => !kv.snd.isEmpty),
       l.filter (fun p => (firstCategory p).isNone)⟩ := by
  rw [categorize_permissions]
  rw [categorize_foldl l [] (PERMISSION_CATEGORIES.map (fun kv => (kv.fst, []))) []]
  congr 1

/-- Dropping the empty buckets does not change the flattened contents. -/
theorem flatten_map_filter_nonEmpty (L : List (String × List String)) :
    ((L.filter (fun kv => !kv.snd.isEmpty)).map Prod.snd).flatten
      = (L.map Prod.snd).flatten := by
  induction L with
  | nil => rfl
  | cons kv L' ih =>
    rw [List.filter_cons]
    cases hkv : kv.snd.isEmpty
    · simp [hkv, ih]
    · have hnil : kv.snd = [] := by
        cases h : kv.snd
        · rfl
        · rw [h] at hkv
          simp at hkv
      simp [hkv, ih, hnil]

/-- Generic partition permutation: filtering a list by the fibres of a
classifier `fc` over a duplicate-free key list covering every classified
element, then appending the unclassified remainder, is a permutation of
the list. -/
theorem partition_filter_perm (fc : String → Option String) :
    ∀ (K : List String) (l : List String), K.Nodup →
    (∀ p ∈ l, ∀ c, fc p = some c → c ∈ K) →
    List.Perm ((K.map (fun c => l.filter (fun p => fc p == some c))).flatten
      ++ l.filter (fun p => (fc p).isNone)) l := by
  intro K
  induction K with
  | nil =>
    intro l _ hcov
    simp only [List.map_nil, List.flatten_nil, List.nil_append]
    have : l.filter (fun p => (fc p).isNone) = l := by
      rw [List.filter_eq_self]
      intro a ha
      rcases h : fc a with _ | c
      · simp
      · exact absurd (hcov a ha c h) (List.not_mem_nil c)
    rw [this]
  | cons c K' ih =>
    intro l hK hcov
    have hcK' : c ∉ K' := (List.nodup_cons.mp hK).1
    have hK' : K'.Nodup := (List.nodup_cons.mp hK).2
    have hsub : ∀ (q : String → Bool), (∀ x, q x = true → (fc x == some c) = false) →
        (l.filter (fun p => !(fc p == some c))).filter q = l.filter q := by
      intro q hq
      rw [List.filter_filter]
      apply List.filter_congr
      intro x _
      cases hqx : q x
      · simp
      · simp [hq x hqx]
    have hbuckets : K'.map (fun c' => (l.filter (fun p => !(fc p == some c))).filter
        (fun p => fc p == some c')) = K'.map (fun c' => l.filter (fun p => fc p == some c')) := by
      apply List.map_congr_left
      intro c' hc'
      apply hsub
      intro x hx
      have hfx : fc x = some c' := by simpa using hx
      rw [hfx]
      simp only [beq_eq_false_iff_ne, ne_eq, Option.some.injEq]
      intro h
      exact hcK' (h ▸ hc')
    have hnone : (l.filter (fun p => !(fc p == some c))).filter (fun p => (fc p).isNone)
        = l.filter (fun p => (fc p).isNone) := by
      apply hsub
      intro x hx
      rcases h : fc x with _ | d
      · rfl
      · rw [h] at hx
        simp at hx
    have hcov' : ∀ p ∈ l.filter (fun p => !(fc p == some c)), ∀ d, fc p = some d → d ∈ K' := by
      intro p hp d hd
      have hpl : p ∈ l := List.mem_of_mem_filter hp
      have hpc : (fc p == some c) = false := by
        have := List.of_mem_filter hp
        simpa using this
      have : d ∈ c :: K' := hcov p hpl d hd
      rcases List.mem_cons.mp this with h | h
      · exfalso
        rw [hd, h] at hpc
        simp at hpc
      · exact h
    have ihl := ih (l.filter (fun p => !(fc p == some c))) hK' hcov'
    rw [hbuckets, hnone] at ihl
    rw [List.map_cons, List.flatten_cons, List.append_assoc]
    exact List.Perm.trans
      (List.Perm.append_left (l.filter (fun p => fc p == some c)) ihl)
      (List.filter_append_perm (fun p => fc p == some c) l)

/-- Buckets of the categorization result are the fibre filters of
`firstCategory`. -/
theorem categorize_bucket_eq (permissions : List String) (c : String) (ps : List String)
    (h : (c, ps) ∈ (categorize_permissions permissions).categories) :
    ps = permissions.filter (fun p => firstCategory p == some c) := by
  rw [categorize_permissions_eq] at h
  simp only at h
  have h1 := (List.mem_filter.mp h).1
  rcases List.mem_map.mp h1 with ⟨kv, _, hkv⟩
  have hfst : kv.fst = c := congrArg Prod.fst hkv
  have hsnd := congrArg Prod.snd hkv
  simp only at hsnd
  rw [← hsnd, hfst]

/-- C5: `categorize_permissions` partitions its input — concatenating
the (non-empty) category lists and `other` is a permutation of the input
(no permission lost or duplicated), a permission never sits in two
category buckets, and a permission in `other` sits in no category
bucket. -/
theorem C5_categorize_partition (permissions : List String) :
    List.Perm ((((categorize_permissions permissions).categories).map Prod.snd).flatten
        ++ (categorize_permissions permissions).other) permissions ∧
    (∀ c₁ c₂ ps₁ ps₂ p, (c₁, ps₁) ∈ (categorize_permissions permissions).categories →
      (c₂, ps₂) ∈ (categorize_permissions permissions).categories →
      p ∈ ps₁ → p ∈ ps₂ → c₁ = c₂) ∧
    (∀ p, p ∈ (categorize_permissions permissions).other →
      ∀ c ps, (c, ps) ∈ (categorize_permissions permissions).categories → p ∉ ps) := by
  have hcov : ∀ p ∈ permissions, ∀ c, firstCategory p = some c →
      c ∈ PERMISSION_CATEGORIES.map Prod.fst := by
    intro p _ c h
    rw [firstCategory] at h
    rcases hfind : PERMISSION_CATEGORIES.find? (fun kv => kv.snd.contains p) with _ | kv
    · rw [hfind] at h
      simp at h
    · rw [hfind] at h
      have h' : kv.fst = c := by simpa using h
      rw [← h']
      exact List.mem_map_of_mem _ (List.mem_of_find?_eq_some hfind)
  refine ⟨?_, ?_, ?_⟩
  · rw [categorize_permissions_eq]
    rw [flatten_map_filter_nonEmpty, List.map_map]
    have hperm := partition_filter_perm firstCategory (PERMISSION_CATEGORIES.map Prod.fst)
      permissions (by decide) hcov
    rw [List.map_map] at hperm
    exact hperm
  · intro c₁ c₂ ps₁ ps₂ p h₁ h₂ hp₁ hp₂
    have e₁ := categorize_bucket_eq permissions c₁ ps₁ h₁
    have e₂ := categorize_bucket_eq permissions c₂ ps₂ h₂
    rw [e₁] at hp₁
    rw [e₂] at hp₂
    have f₁ : firstCategory p = some c₁ := by simpa using List.of_mem_filter hp₁
    have f₂ : firstCategory p = some c₂ := by simpa using List.of_mem_filter hp₂
    rw [f₁] at f₂
    exact Option.some.inj f₂
  · intro p hp c ps hcps hpps
    have hnone : (firstCategory p).isNone = true := by
      rw [categorize_permissions_eq] at hp
      simp only at hp
      exact (List.mem_filter.mp hp).2
    have e := categorize_bucket_eq permissions c ps hcps
    rw [e] at hpps
    have hsome : firstCategory p = some c := by simpa using List.of_mem_filter hpps
    rw [hsome] at hnone
    simp at hnone

/-- Witness for C5 on a concrete permission list with one camera
permission, one unknown permission, and a duplicate. -/
theorem C5_categorize_partition_witness :
    List.Perm ((((categorize_permissions ["android.permission.CAMERA",
          "android.permission.FOO", "android.permission.CAMERA"]).categories).map
            Prod.snd).flatten
        ++ (categorize_permissions ["android.permission.CAMERA",
          "android.permission.FOO", "android.permission.CAMERA"]).other)
      ["android.permission.CAMERA", "android.permission.FOO",
        "android.permission.CAMERA"] ∧
    ("camera", ["android.permission.CAMERA", "android.permission.CAMERA"]) ∈
      (categorize_permissions ["android.permission.CAMERA", "android.permission.FOO",
        "android.permission.CAMERA"]).categories ∧
    "camera" = "camera" :=
  ⟨(C5_categorize_partition ["android.permission.CAMERA", "android.permission.FOO",
      "android.permission.CAMERA"]).1,
   by decide,
   (C5_categorize_partition ["android.permission.CAMERA", "android.permission.FOO",
      "android.permission.CAMERA"]).2.1 "camera" "camera"
     ["android.permission.CAMERA", "android.permission.CAMERA"]
     ["android.permission.CAMERA", "android.permission.CAMERA"]
     "android.permission.CAMERA" (by decide) (by decide) (by decide) (by decide)⟩

/-- The line loop preserves any state predicate that every step
preserves. -/
theorem foldl_processLine_inv (P : AppDetails × PmSection → Prop) :
    ∀ (lines : List PyStr) (st : AppDetails × PmSection), P st →
      (∀ st' l, l ∈ lines → P st' → P (processLine st' l)) →
      P (lines.foldl processLine st) := by
  intro lines
  induction lines with
  | nil =>
    intro st h _
    exact h
  | cons l rest ih =>
    intro st h hstep
    rw [List.foldl_cons]
    exact ih (processLine st l) (hstep st l (List.mem_cons_self l rest) h)
      (fun st' x hx hP => hstep st' x (List.mem_cons_of_mem l hx) hP)

/-- Exhaustive case analysis of one parser step: the line either leaves
the state unchanged, or takes exactly one branch of the chain, each
branch recording the condition that fired and the one field it
appends/overwrites. -/
theorem processLine_cases (st : AppDetails × PmSection) (l : PyStr) :
    processLine st l = (st.fst, st.snd) ∨
    (containsSub (pyStrip l) kwApplicationInfo = true ∧
      ∃ nm, extractLabel (pyStrip l) = some nm ∧
        processLine st l = ({ st.fst with app_name := nm }, st.snd)) ∨
    (containsSub (pyStrip l) kwInstallInitiator = true ∧
      ∃ v, processLine st l = ({ st.fst with install_source := some v }, st.snd)) ∨
    (containsSub (pyStrip l) kwFirstInstallTime = true ∧
      ∃ v, processLine st l = ({ st.fst with first_install_time := some v }, st.snd)) ∨
    (containsSub (pyStrip l) kwLastUpdateTime = true ∧
      ∃ v, processLine st l = ({ st.fst with last_update_time := some v }, st.snd)) ∨
    (containsSub (pyStrip l) kwRequestedSection = true ∧
      processLine st l = (st.fst, PmSection.requested)) ∨
    (containsSub (pyStrip l) kwRuntimeSection = true ∧
      processLine st l = (st.fst, PmSection.runtime)) ∨
    (processLine st l = (st.fst, PmSection.install)) ∨
    (st.snd = PmSection.requested ∧ ∃ v, processLine st l = ({ st.fst with permissions := { st.fst.permissions with requested := st.fst.permissions.requested ++ [v] } }, st.snd)) ∨
    (st.snd = PmSection.runtime ∧ ∃ v, processLine st l = ({ st.fst with permissions := { st.fst.permissions with granted := st.fst.permissions.granted ++ [v] } }, st.snd)) ∨
    (st.snd = PmSection.runtime ∧ ∃ v, processLine st l = ({ st.fst with permissions := { st.fst.permissions with denied := st.fst.permissions.denied ++ [v] } }, st.snd)) ∨
    (∃ v, processLine st l = ({ st.fst with network_permissions := st.fst.network_permissions ++ [v] }, st.snd)) ∨
    (∃ v, processLine st l = ({ st.fst with shared_libraries := st.fst.shared_libraries ++ [v] }, st.snd)) ∨
    (∃ v, processLine st l = ({ st.fst with shared_user_ids := st.fst.shared_user_ids ++ [v] }, st.snd)) := by
  cases hb : containsSub (pyStrip l) kwApplicationInfo
  · cases h2 : containsSub (pyStrip l) kwInstallInitiator
    · cases h3 : containsSub (pyStrip l) kwFirstInstallTime
      · cases h4 : containsSub (pyStrip l) kwLastUpdateTime
        · cases h5 : containsSub (pyStrip l) kwRequestedSection
          · cases h6 : containsSub (pyStrip l) kwRuntimeSection
            · cases h7 : containsSub (pyStrip l) kwInstallSection
              · cases h8 : (decide (st.snd = PmSection.requested) && leadsWith kwAndroidPermission (pyStrip l))
                · cases h9 : (decide (st.snd = PmSection.runtime) && containsSub (pyStrip l) kwGrantedTrue)
                  · cases h10 : (decide (st.snd = PmSection.runtime) && containsSub (pyStrip l) kwGrantedFalse)
                    · cases h11 : (containsSub (pyStrip l) kwInternet || containsSub (pyStrip l) kwNetwork)
                      · cases h12 : containsSub (pyStrip l) kwLibraryInfo
                        · cases h13 : containsSub (pyStrip l) kwSharedUser
                          · refine Or.inl ?_
                            simp only [processLine, hb, h2, h3, h4, h5, h6, h7, h8, h9, h10, h11, h12, h13, Bool.false_eq_true, if_false]
                          · refine Or.inr (Or.inr (Or.inr (Or.inr (Or.inr (Or.inr (Or.inr (Or.inr (Or.inr (Or.inr (Or.inr (Or.inr (Or.inr ⟨pyStrip (afterSub kwSharedUser (pyStrip l)), ?_⟩))))))))))))
                            simp only [processLine, hb, h2, h3, h4, h5, h6, h7, h8, h9, h10, h11, h12, h13, Bool.false_eq_true, if_false, if_true]
                        · refine Or.inr (Or.inr (Or.inr (Or.inr (Or.inr (Or.inr (Or.inr (Or.inr (Or.inr (Or.inr (Or.inr (Or.inr (Or.inl ⟨pyStrip (pyStrip l), ?_⟩))))))))))))
                          simp only [processLine, hb, h2, h3, h4, h5, h6, h7, h8, h9, h10, h11, h12, Bool.false_eq_true, if_false, if_true]
                      · refine Or.inr (Or.inr (Or.inr (Or.inr (Or.inr (Or.inr (Or.inr (Or.inr (Or.inr (Or.inr (Or.inr (Or.inl ⟨pyStrip (pyStrip l), ?_⟩)))))))))))
                        simp only [processLine, hb, h2, h3, h4, h5, h6, h7, h8, h9, h10, h11, Bool.false_eq_true, if_false, if_true]
                    · have hsec : st.snd = PmSection.runtime := by
                        have hcopy := h10
                        simp only [Bool.and_eq_true, decide_eq_true_eq] at hcopy
                        exact hcopy.1
                      refine Or.inr (Or.inr (Or.inr (Or.inr (Or.inr (Or.inr (Or.inr (Or.inr (Or.inr (Or.inr (Or.inl ⟨hsec, pyStrip (colonHead (pyStrip l)), ?_⟩))))))))))
                      simp only [processLine, hb, h2, h3, h4, h5, h6, h7, h8, h9, h10, Bool.false_eq_true, if_false, if_true]
                  · have hsec : st.snd = PmSection.runtime := by
                      have hcopy := h9
                      simp only [Bool.and_eq_true, decide_eq_true_eq] at hcopy
                      exact hcopy.1
                    refine Or.inr (Or.inr (Or.inr (Or.inr (Or.inr (Or.inr (Or.inr (Or.inr (Or.inr (Or.inl ⟨hsec, pyStrip (colonHead (pyStrip l)), ?_⟩)))))))))
                    simp only [processLine, hb, h2, h3, h4, h5, h6, h7, h8, h9, Bool.false_eq_true, if_false, if_true]
                · have hsec : st.snd = PmSection.requested := by
                    have hcopy := h8
                    simp only [Bool.and_eq_true, decide_eq_true_eq] at hcopy
                    exact hcopy.1
                  refine Or.inr (Or.inr (Or.inr (Or.inr (Or.inr (Or.inr (Or.inr (Or.inr (Or.inl ⟨hsec, pyStrip (pyStrip l), ?_⟩))))))))
                  simp only [processLine, hb, h2, h3, h4, h5, h6, h7, h8, Bool.false_eq_true, if_false, if_true]
              · refine Or.inr (Or.inr (Or.inr (Or.inr (Or.inr (Or.inr (Or.inr (Or.inl ?_)))))))
                simp only [processLine, hb, h2, h3, h4, h5, h6, h7, Bool.false_eq_true, if_false, if_true]
            · refine Or.inr (Or.inr (Or.inr (Or.inr (Or.inr (Or.inr (Or.inl ⟨rfl, ?_⟩))))))
              simp only [processLine, hb, h2, h3, h4, h5, h6, Bool.false_eq_true, if_false, if_true]
          · refine Or.inr (Or.inr (Or.inr (Or.inr (Or.inr (Or.inl ⟨rfl, ?_⟩)))))
            simp only [processLine, hb, h2, h3, h4, h5, Bool.false_eq_true, if_false, if_true]
        · refine Or.inr (Or.inr (Or.inr (Or.inr (Or.inl ⟨rfl, tokenToSpace (afterSub kwLastUpdateTime (pyStrip l)), ?_⟩))))
          simp only [processLine, hb, h2, h3, h4, Bool.false_eq_true, if_false, if_true]
      · refine Or.inr (Or.inr (Or.inr (Or.inl ⟨rfl, tokenToSpace (afterSub kwFirstInstallTime (pyStrip l)), ?_⟩)))
        simp only [processLine, hb, h2, h3, Bool.false_eq_true, if_false, if_true]
    · refine Or.inr (Or.inr (Or.inl ⟨rfl, pyStrip (afterSub kwInstallInitiator (pyStrip l)), ?_⟩))
      simp only [processLine, hb, h2, Bool.false_eq_true, if_false, if_true]
  · rcases hex : extractLabel (pyStrip l) with _ | nm
    · refine Or.inl ?_
      simp only [processLine, hb, hex, if_true]
    · refine Or.inr (Or.inl ⟨rfl, nm, rfl, ?_⟩)
      simp only [processLine, hb, hex, if_true]

/-- A step keeps the default app name when the line has no extractable
applicationInfo label; no other branch of the chain touches the name. -/
theorem processLine_app_name (pkg : PyStr) (st : AppDetails × PmSection) (l : PyStr)
    (hP : st.fst.app_name = pkg)
    (h : containsSub (pyStrip l) kwApplicationInfo = true →
      extractLabel (pyStrip l) = none) :
    (processLine st l).fst.app_name = pkg := by
  rcases processLine_cases st l with heq | ⟨hc, nm, hex, heq⟩ | ⟨hc, v, heq⟩ | ⟨hc, v, heq⟩ | ⟨hc, v, heq⟩ | ⟨hc, heq⟩ | ⟨hc, heq⟩ | heq | ⟨hsec, v, heq⟩ | ⟨hsec, v, heq⟩ | ⟨hsec, v, heq⟩ | ⟨v, heq⟩ | ⟨v, heq⟩ | ⟨v, heq⟩ <;>
    first
      | (rw [heq]; exact hP)
      | (rw [h hc] at hex; exact Option.noConfusion hex)

/-- A step keeps the requested-permissions list empty (and stays out of
the requested section) when the line is not the requested-section
header. -/
theorem processLine_requested (st : AppDetails × PmSection) (l : PyStr)
    (hP : st.fst.permissions.requested = [] ∧ st.snd ≠ PmSection.requested)
    (h : containsSub (pyStrip l) kwRequestedSection = false) :
    (processLine st l).fst.permissions.requested = [] ∧
      (processLine st l).snd ≠ PmSection.requested := by
  obtain ⟨hP1, hP2⟩ := hP
  rcases processLine_cases st l with heq | ⟨hc, nm, hex, heq⟩ | ⟨hc, v, heq⟩ | ⟨hc, v, heq⟩ | ⟨hc, v, heq⟩ | ⟨hc, heq⟩ | ⟨hc, heq⟩ | heq | ⟨hsec, v, heq⟩ | ⟨hsec, v, heq⟩ | ⟨hsec, v, heq⟩ | ⟨v, heq⟩ | ⟨v, heq⟩ | ⟨v, heq⟩ <;>
    first
      | (rw [heq]; exact ⟨hP1, hP2⟩)
      | (rw [heq]; exact ⟨hP1, fun hcon => PmSection.noConfusion hcon⟩)
      | (rw [h] at hc; exact Bool.noConfusion hc)
      | (exact absurd hsec hP2)

/-- A step keeps the granted and denied lists empty (and stays out of
the runtime section) when the line is not the runtime-section header. -/
theorem processLine_runtime (st : AppDetails × PmSection) (l : PyStr)
    (hP : st.fst.permissions.granted = [] ∧ st.fst.permissions.denied = [] ∧
      st.snd ≠ PmSection.runtime)
    (h : containsSub (pyStrip l) kwRuntimeSection = false) :
    (processLine st l).fst.permissions.granted = [] ∧
      (processLine st l).fst.permissions.denied = [] ∧
      (processLine st l).snd ≠ PmSection.runtime := by
  obtain ⟨hP1, hP2, hP3⟩ := hP
  rcases processLine_cases st l with heq | ⟨hc, nm, hex, heq⟩ | ⟨hc, v, heq⟩ | ⟨hc, v, heq⟩ | ⟨hc, v, heq⟩ | ⟨hc, heq⟩ | ⟨hc, heq⟩ | heq | ⟨hsec, v, heq⟩ | ⟨hsec, v, heq⟩ | ⟨hsec, v, heq⟩ | ⟨v, heq⟩ | ⟨v, heq⟩ | ⟨v, heq⟩ <;>
    first
      | (rw [heq]; exact ⟨hP1, hP2, hP3⟩)
      | (rw [heq]; exact ⟨hP1, hP2, fun hcon => PmSection.noConfusion hcon⟩)
      | (rw [h] at hc; exact Bool.noConfusion hc)
      | (exact absurd hsec hP3)

/-- A step keeps the install source absent when the line lacks the
`installInitiator:` marker. -/
theorem processLine_install_source (st : AppDetails × PmSection) (l : PyStr)
    (hP : st.fst.install_source = none)
    (h : containsSub (pyStrip l) kwInstallInitiator = false) :
    (processLine st l).fst.install_source = none := by
  rcases processLine_cases st l with heq | ⟨hc, nm, hex, heq⟩ | ⟨hc, v, heq⟩ | ⟨hc, v, heq⟩ | ⟨hc, v, heq⟩ | ⟨hc, heq⟩ | ⟨hc, heq⟩ | heq | ⟨hsec, v, heq⟩ | ⟨hsec, v, heq⟩ | ⟨hsec, v, heq⟩ | ⟨v, heq⟩ | ⟨v, heq⟩ | ⟨v, heq⟩ <;>
    first
      | (rw [heq]; exact hP)
      | (rw [h] at hc; exact Bool.noConfusion hc)

/-- A step keeps the first-install timestamp absent when the line lacks
the `firstInstallTime=` marker. -/
theorem processLine_first_install_time (st : AppDetails × PmSection) (l : PyStr)
    (hP : st.fst.first_install_time = none)
    (h : containsSub (pyStrip l) kwFirstInstallTime = false) :
    (processLine st l).fst.first_install_time = none := by
  rcases processLine_cases st l with heq | ⟨hc, nm, hex, heq⟩ | ⟨hc, v, heq⟩ | ⟨hc, v, heq⟩ | ⟨hc, v, heq⟩ | ⟨hc, heq⟩ | ⟨hc, heq⟩ | heq | ⟨hsec, v, heq⟩ | ⟨hsec, v, heq⟩ | ⟨hsec, v, heq⟩ | ⟨v, heq⟩ | ⟨v, heq⟩ | ⟨v, heq⟩ <;>
    first
      | (rw [heq]; exact hP)
      | (rw [h] at hc; exact Bool.noConfusion hc)

/-- A step keeps the last-update timestamp absent when the line lacks
the `lastUpdateTime=` marker. -/
theorem processLine_last_update_time (st : AppDetails × PmSection) (l : PyStr)
    (hP : st.fst.last_update_time = none)
    (h : containsSub (pyStrip l) kwLastUpdateTime = false) :
    (processLine st l).fst.last_update_time = none := by
  rcases processLine_cases st l with heq | ⟨hc, nm, hex, heq⟩ | ⟨hc, v, heq⟩ | ⟨hc, v, heq⟩ | ⟨hc, v, heq⟩ | ⟨hc, heq⟩ | ⟨hc, heq⟩ | heq | ⟨hsec, v, heq⟩ | ⟨hsec, v, heq⟩ | ⟨hsec, v, heq⟩ | ⟨v, heq⟩ | ⟨v, heq⟩ | ⟨v, heq⟩ <;>
    first
      | (rw [heq]; exact hP)
      | (rw [h] at hc; exact Bool.noConfusion hc)

/-- C6: on any diagnostic dump text (the dump command itself having
succeeded), each field whose extraction pattern matches no line of the
text is left at its documented default, independently of the other
fields: the app name falls back to the package identifier when no
applicationInfo label is extractable, the requested list is empty when
the requested-section header never occurs, the granted and denied lists
are empty when the runtime-section header never occurs, and install
source and the two timestamps are absent when their markers never
occur.  (The model is a total function: the Python code catches the
per-field exceptions these defaults correspond to.) -/
theorem C6_get_app_details_defaults (pkg dump : PyStr) :
    ((∀ l ∈ pySplit "\n".data dump,
        containsSub (pyStrip l) "applicationInfo".data = true →
          extractLabel (pyStrip l) = none) →
      (adb_get_app_details pkg dump).app_name = pkg) ∧
    ((∀ l ∈ pySplit "\n".data dump,
        containsSub (pyStrip l) "requested permissions:".data = false) →
      (adb_get_app_details pkg dump).permissions.requested = []) ∧
    ((∀ l ∈ pySplit "\n".data dump,
        containsSub (pyStrip l) "runtime permissions:".data = false) →
      (adb_get_app_details pkg dump).permissions.granted = [] ∧
        (adb_get_app_details pkg dump).permissions.denied = []) ∧
    ((∀ l ∈ pySplit "\n".data dump,
        containsSub (pyStrip l) "installInitiator:".data = false) →
      (adb_get_app_details pkg dump).install_source = none) ∧
    ((∀ l ∈ pySplit "\n".data dump,
        containsSub (pyStrip l) "firstInstallTime=".data = false) →
      (adb_get_app_details pkg dump).first_install_time = none) ∧
    ((∀ l ∈ pySplit "\n".data dump,
        containsSub (pyStrip l) "lastUpdateTime=".data = false) →
      (adb_get_app_details pkg dump).last_update_time = none) := by
  refine ⟨?_, ?_, ?_, ?_, ?_, ?_⟩
  · intro h
    exact foldl_processLine_inv (fun st => st.fst.app_name = pkg)
      (pySplit "\n".data dump) (defaultDetails pkg, PmSection.start) rfl
      (fun st' x hx hP => processLine_app_name pkg st' x hP (h x hx))
  · intro h
    exact (foldl_processLine_inv
      (fun st => st.fst.permissions.requested = [] ∧ st.snd ≠ PmSection.requested)
      (pySplit "\n".data dump) (defaultDetails pkg, PmSection.start)
      ⟨rfl, fun hc => PmSection.noConfusion hc⟩
      (fun st' x hx hP => processLine_requested st' x hP (h x hx))).1
  · intro h
    have hres := foldl_processLine_inv
      (fun st => st.fst.permissions.granted = [] ∧ st.fst.permissions.denied = [] ∧
        st.snd ≠ PmSection.runtime)
      (pySplit "\n".data dump) (defaultDetails pkg, PmSection.start)
      ⟨rfl, rfl, fun hc => PmSection.noConfusion hc⟩
      (fun st' x hx hP => processLine_runtime st' x hP (h x hx))
    exact ⟨hres.1, hres.2.1⟩
  · intro h
    exact foldl_processLine_inv (fun st => st.fst.install_source = none)
      (pySplit "\n".data dump) (defaultDetails pkg, PmSection.start) rfl
      (fun st' x hx hP => processLine_install_source st' x hP (h x hx))
  · intro h
    exact foldl_processLine_inv (fun st => st.fst.first_install_time = none)
      (pySplit "\n".data dump) (defaultDetails pkg, PmSection.start) rfl
      (fun st' x hx hP => processLine_first_install_time st' x hP (h x hx))
  · intro h
    exact foldl_processLine_inv (fun st => st.fst.last_update_time = none)
      (pySplit "\n".data dump) (defaultDetails pkg, PmSection.start) rfl
      (fun st' x hx hP => processLine_last_update_time st' x hP (h x hx))

/-- Witness for C6 on a concrete dump with no recognizable lines,
discharging each per-field hypothesis. -/
theorem C6_get_app_details_defaults_witness :
    (∀ l ∈ pySplit "\n".data "Packages:\n  userId=1000\n  flags=[ SYSTEM ]".data,
      containsSub (pyStrip l) "applicationInfo".data = true →
        extractLabel (pyStrip l) = none) ∧
    ((adb_get_app_details "com.example".data
        "Packages:\n  userId=1000\n  flags=[ SYSTEM ]".data).app_name = "com.example".data ∧
      (adb_get_app_details "com.example".data
        "Packages:\n  userId=1000\n  flags=[ SYSTEM ]".data).permissions.requested = [] ∧
      ((adb_get_app_details "com.example".data
        "Packages:\n  userId=1000\n  flags=[ SYSTEM ]".data).permissions.granted = [] ∧
        (adb_get_app_details "com.example".data
          "Packages:\n  userId=1000\n  flags=[ SYSTEM ]".data).permissions.denied = []) ∧
      (adb_get_app_details "com.example".data
        "Packages:\n  userId=1000\n  flags=[ SYSTEM ]".data).install_source = none ∧
      (adb_get_app_details "com.example".data
        "Packages:\n  userId=1000\n  flags=[ SYSTEM ]".data).first_install_time = none ∧
      (adb_get_app_details "com.example".data
        "Packages:\n  userId=1000\n  flags=[ SYSTEM ]".data).last_update_time = none) :=
  ⟨by decide,
   (C6_get_app_details_defaults "com.example".data
     "Packages:\n  userId=1000\n  flags=[ SYSTEM ]".data).1 (by decide),
   (C6_get_app_details_defaults "com.example".data
     "Packages:\n  userId=1000\n  flags=[ SYSTEM ]".data).2.1 (by decide),
   (C6_get_app_details_defaults "com.example".data
     "Packages:\n  userId=1000\n  flags=[ SYSTEM ]".data).2.2.1 (by decide),
   (C6_get_app_details_defaults "com.example".data
     "Packages:\n  userId=1000\n  flags=[ SYSTEM ]".data).2.2.2.1 (by decide),
   (C6_get_app_details_defaults "com.example".data
     "Packages:\n  userId=1000\n  flags=[ SYSTEM ]".data).2.2.2.2.1 (by decide),
   (C6_get_app_details_defaults "com.example".data
     "Packages:\n  userId=1000\n  flags=[ SYSTEM ]".data).2.2.2.2.2 (by decide)⟩
